import Mathlib

/-!
Verification of the student-data ETL pipeline (transform / load / orchestrator)
against its specification.  The Python modules `src/etl/transform.py`,
`src/etl/load.py`, `src/etl/etl.py` and the validator sets of
`src/api/main.py` are shallowly embedded below: text cells are modelled as
`Option String` (a `None`/NaN cell is `none`), numeric GPA cells as `GCell`,
a pandas `DataFrame` as a list of (index label, row) pairs, and the
PostgreSQL store as an explicit in-memory state threaded through the loader.
-/

namespace ETL

/-! ### Python string primitives used by the transformer -/

/-- Python's `\s` whitespace class (ASCII part, which is all the code relies on). -/
def isPySpace (c : Char) : Bool :=
  c = ' ' || c = '\t' || c = '\n' || c = '\r' || c = '\x0b' || c = '\x0c'

/-- ASCII letter test, `[a-zA-Z]`. -/
def isAsciiLetter (c : Char) : Bool :=
  ('a' ≤ c && c ≤ 'z') || ('A' ≤ c && c ≤ 'Z')

/-- ASCII digit test, `[0-9]`. -/
def isDigitChar (c : Char) : Bool :=
  '0' ≤ c && c ≤ '9'

/-- Python `str.strip()`: drop whitespace from both ends. -/
def pyStrip (s : String) : String :=
  String.mk (((s.toList.dropWhile isPySpace).reverse.dropWhile isPySpace).reverse)

/-- Worker for `collapseWs`; the flag records whether the previous character
was whitespace (i.e. we are inside a run already replaced by one space). -/
def collapseWsGo : Bool → List Char → List Char
  | _, [] => []
  | prevSpace, c :: cs =>
    if isPySpace c then
      if prevSpace then collapseWsGo true cs
      else ' ' :: collapseWsGo true cs
    else c :: collapseWsGo false cs

/-- `re.sub(r'\s+', ' ', s)`: collapse every whitespace run to one space. -/
def collapseWs (l : List Char) : List Char :=
  collapseWsGo false l

/-- Python `str.lower()` (ASCII). -/
def pyLower (s : String) : String :=
  String.mk (s.toList.map Char.toLower)

/-- Python `str.upper()` (ASCII). -/
def pyUpper (s : String) : String :=
  String.mk (s.toList.map Char.toUpper)

/-- One step of Python `str.title()`: the boolean says whether the previous
character was alphabetic. -/
def pyTitleGo : Bool → List Char → List Char
  | _, [] => []
  | prev, c :: cs =>
    if isAsciiLetter c then
      (if prev then c.toLower else c.toUpper) :: pyTitleGo true cs
    else
      c :: pyTitleGo false cs

/-- Python `str.title()`: first letter of each alphabetic run upper-cased,
the rest lower-cased. -/
def pyTitle (s : String) : String :=
  String.mk (pyTitleGo false s.toList)

/-! ### Validator / normalizer functions (`transform.py`) -/

/-- `DataTransformer.clean_string`: strip, collapse inner whitespace,
empty becomes `None`. -/
def clean_string (v : Option String) : Option String :=
  match v with
  | none => none
  | some s =>
    let c := String.mk (collapseWs (pyStrip s).toList)
    if c = "" then none else some c

/-- `DataTransformer.normalize_name`: clean then title-case. -/
def normalize_name (v : Option String) : Option String :=
  (clean_string v).map pyTitle

/-- `DataTransformer.normalize_email`: clean then lower-case. -/
def normalize_email (v : Option String) : Option String :=
  (clean_string v).map pyLower

/-- Characters allowed in the local part of `EMAIL_PATTERN`,
`[a-zA-Z0-9._%+-]`. -/
def isLocalChar (c : Char) : Bool :=
  isAsciiLetter c || isDigitChar c || c = '.' || c = '_' || c = '%' || c = '+' || c = '-'

/-- Characters allowed in the domain part of `EMAIL_PATTERN`, `[a-zA-Z0-9.-]`. -/
def isDomainChar (c : Char) : Bool :=
  isAsciiLetter c || isDigitChar c || c = '.' || c = '-'

/-- Split a character list at the first occurrence of `a`, yielding the parts
before and after it. -/
def splitFirst (a : Char) : List Char → Option (List Char × List Char)
  | [] => none
  | c :: cs =>
    if c = a then some ([], cs)
    else (splitFirst a cs).map (fun p => (c :: p.1, p.2))

/-- Match of the domain part against `[a-zA-Z0-9.-]+\.[a-zA-Z]{2,}$`: since the
final label is letters-only, the separating dot is necessarily the last dot. -/
def domainMatch (d : List Char) : Bool :=
  let rev := d.reverse
  let tldRev := rev.takeWhile (fun c => c ≠ '.')
  match rev.dropWhile (fun c => c ≠ '.') with
  | [] => false
  | _ :: preRev =>
    decide (preRev ≠ []) && preRev.all isDomainChar &&
      decide (2 ≤ tldRev.length) && tldRev.all isAsciiLetter

/-- `EMAIL_PATTERN.match`: `^[a-zA-Z0-9._%+-]+@[a-zA-Z0-9.-]+\.[a-zA-Z]{2,}$`.
Neither character class contains `@`, so the string must contain exactly one
`@`, splitting it into local part and domain. -/
def emailMatch (s : String) : Bool :=
  match splitFirst '@' s.toList with
  | none => false
  | some (loc, dom) => decide (loc ≠ []) && loc.all isLocalChar && domainMatch dom

/-- `DataTransformer.validate_email`: NaN is invalid, else match the pattern
against the stripped string. -/
def validate_email (e : Option String) : Bool :=
  match e with
  | none => false
  | some s => emailMatch (pyStrip s)

/-- The character class of `transform.py` line 77, literally
`[\s\-$$$$\+]`: whitespace, dash, dollar sign, plus.  (The source strips
`$`, not parentheses.) -/
def isPhoneStripChar (c : Char) : Bool :=
  isPySpace c || c = '-' || c = '$' || c = '+'

/-- `DataTransformer.validate_phone`: absent/blank is valid; else remove the
characters of the stripping class and require 10–15 digits. -/
def validate_phone (p : Option String) : Bool :=
  match p with
  | none => true
  | some s =>
    if pyStrip s = "" then true
    else
      let cleaned := s.toList.filter (fun c => !isPhoneStripChar c)
      decide (10 ≤ cleaned.length) && decide (cleaned.length ≤ 15) &&
        cleaned.all isDigitChar

/-! ### Numeric cells: GPA parsing, validation and clipping -/

/-- A raw numeric-column cell: NaN/absent, an actual number, or a string that
may or may not parse. -/
inductive GCell where
  | absent : GCell
  | num (q : ℚ) : GCell
  | str (s : String) : GCell
deriving DecidableEq, Repr

/-- Value of a digit run. -/
def digitsVal (cs : List Char) : ℕ :=
  cs.foldl (fun a c => a * 10 + (c.toNat - '0'.toNat)) 0

/-- Python `float(s)` / `pd.to_numeric` on a decimal literal string: optional
sign, digits, optional fractional part (scientific notation is not needed by
any record the spec discusses). -/
def parseRat (s : String) : Option ℚ :=
  let cs := (pyStrip s).toList
  let sign : Bool := cs.headD 'x' = '-'
  let cs := if cs.headD 'x' = '-' || cs.headD 'x' = '+' then cs.tail else cs
  let intPart := cs.takeWhile isDigitChar
  let rest := cs.dropWhile isDigitChar
  match rest with
  | [] =>
    if intPart = [] then none
    else some ((if sign then -1 else 1) * (digitsVal intPart : ℚ))
  | '.' :: frac =>
    if frac.all isDigitChar && (decide (intPart ≠ []) || decide (frac ≠ [])) then
      some ((if sign then -1 else 1) *
        ((digitsVal intPart : ℚ) + (digitsVal frac : ℚ) / (10 ^ frac.length)))
    else none
  | _ => none

/-- `pd.to_numeric(x, errors='coerce')` on one cell. -/
def toNumeric : GCell → Option ℚ
  | .absent => none
  | .num q => some q
  | .str s => parseRat s

/-- `DataTransformer.validate_gpa`: NaN is valid (new students), else the value
must parse as a number in [0.0, 4.0]. -/
def validate_gpa (g : GCell) : Bool :=
  match g with
  | .absent => true
  | .num q => decide (0 ≤ q) && decide (q ≤ 4)
  | .str s =>
    match parseRat s with
    | some q => decide (0 ≤ q) && decide (q ≤ 4)
    | none => false

/-- Steps `pd.to_numeric(df['gpa'], errors='coerce')` followed by
`df['gpa'].clip(0.0, 4.0)`: coerce to a number (unparseable → NaN) and clamp
into [0, 4]; NaN stays NaN. -/
def gpaCoerce (g : GCell) : GCell :=
  match toNumeric g with
  | some q => .num (min (max q 0) 4)
  | none => .absent

/-- The later `cast_types` pass applies `pd.to_numeric(·, errors='coerce')`
to the gpa column once more. -/
def gpaCast (g : GCell) : GCell :=
  match toNumeric g with
  | some q => .num q
  | none => .absent

/-! ### Data model of the transformer (`transform.py`)

A pandas `DataFrame` is a list of (index label, row) pairs: `iterrows`,
`drop_duplicates` and boolean-mask filtering all preserve the original
labels, which is exactly what the source relies on.  The embedded schema is
the set of columns the student claims exercise; `transform.py` guards every
step with `if col in df.columns`, so a table carrying exactly these columns
takes the branches modelled here (`graduation_year` / `date_of_birth` /
`phone` columns absent, hence their `cast_types` entries are skipped). -/

structure StudentRow where
  student_code : Option String
  first_name : Option String
  last_name : Option String
  email : Option String
  gpa : GCell
  department_code : Option String
  gender : Option String
deriving DecidableEq, Repr

/-- One entry of `DataTransformer.validation_errors`. -/
structure VError where
  row : Nat
  column : String
  err : String
deriving DecidableEq, Repr

abbrev Frame := List (Nat × StudentRow)

/-- `DataTransformer.VALID_GENDERS`. -/
def VALID_GENDERS : List String :=
  ["Male", "Female", "Other", "Prefer not to say"]

/-- `DataTransformer.VALID_DEPARTMENTS`. -/
def VALID_DEPARTMENTS : List String :=
  ["CS", "MATH", "PHY", "ENG", "BIO", "CHEM", "ECON", "PSY"]

/-- The gender set inside `StudentCreate.validate_gender` (`api/main.py`). -/
def apiValidGenders : List String :=
  ["Male", "Female", "Other", "Prefer not to say"]

/-- The department set inside `StudentCreate.validate_department`
(`api/main.py`). -/
def apiValidDepartments : List String :=
  ["CS", "MATH", "PHY", "ENG", "BIO", "CHEM", "ECON", "PSY"]

/-- Worker for `deduplicate`: keep a row iff its key has not been seen. -/
def dropDuplicatesGo {α β : Type} [DecidableEq β] (key : α → β) :
    List α → List β → List α
  | [], _ => []
  | x :: xs, seen =>
    if key x ∈ seen then dropDuplicatesGo key xs seen
    else x :: dropDuplicatesGo key xs (key x :: seen)

/-- `DataTransformer.deduplicate` = `df.drop_duplicates(subset, keep='first')`:
first occurrence of each key value wins; pandas treats NaN keys as equal to
each other, matched here by `none = none`. -/
def deduplicate {α β : Type} [DecidableEq β] (key : α → β) (df : List α) : List α :=
  dropDuplicatesGo key df []

/-- Step 1 of `transform_students`: normalize names and email in place. -/
def step1Clean (r : StudentRow) : StudentRow :=
  { r with
    first_name := normalize_name r.first_name
    last_name := normalize_name r.last_name
    email := normalize_email r.email }

/-- Step 3 field update: coerce then clip the gpa column. -/
def step3Gpa (r : StudentRow) : StudentRow :=
  { r with gpa := gpaCoerce r.gpa }

/-- Step 4 error predicate: department present but not in the valid set
(`~isin(VALID_DEPARTMENTS) & notna`). -/
def deptErrorP (d : Option String) : Bool :=
  match d with
  | none => false
  | some s => !(decide (s ∈ VALID_DEPARTMENTS))

/-- Step 5 gender normalization: `x.strip().title()` when present. -/
def genderNormalize (g : Option String) : Option String :=
  g.map (fun s => pyTitle (pyStrip s))

/-- Step 5 field update. -/
def step5Gender (r : StudentRow) : StudentRow :=
  { r with gender := genderNormalize r.gender }

/-- Step 5 error predicate on the normalized value. -/
def genderErrorP (g : Option String) : Bool :=
  match g with
  | none => false
  | some s => !(decide (s ∈ VALID_GENDERS))

/-- Step 6 (`cast_types`) on the embedded schema: only the gpa column is
present among the mapped columns, cast with `to_numeric(errors='coerce')`. -/
def step6Cast (r : StudentRow) : StudentRow :=
  { r with gpa := gpaCast r.gpa }

/-- Result of `transform_students` together with the counters the method
logs: duplicate rows removed (step 7, both passes) and invalid rows removed
by the final filter (step 8). -/
structure TransformResult where
  cleaned : Frame
  errors : List VError
  dedupRemoved : Nat
  invalidRemoved : Nat
deriving Repr

/-- `DataTransformer.transform_students`: the fixed eight-step pipeline of
`transform.py` lines 256–365. -/
def transform_students (df : Frame) : TransformResult :=
  let d1 := df.map (fun p => (p.1, step1Clean p.2))
  let emailErrs := (d1.filter (fun p => !validate_email p.2.email)).map
      (fun p => VError.mk p.1 "email" "Invalid email format")
  let gpaErrs := (d1.filter (fun p => !validate_gpa p.2.gpa)).map
      (fun p => VError.mk p.1 "gpa" "Invalid GPA (must be 0.0-4.0)")
  let d3 := d1.map (fun p => (p.1, step3Gpa p.2))
  let deptErrs := (d3.filter (fun p => deptErrorP p.2.department_code)).map
      (fun p => VError.mk p.1 "department_code" "Invalid department code")
  let d5 := d3.map (fun p => (p.1, step5Gender p.2))
  let genderErrs := (d5.filter (fun p => genderErrorP p.2.gender)).map
      (fun p => VError.mk p.1 "gender" "Invalid gender")
  let d6 := d5.map (fun p => (p.1, step6Cast p.2))
  let d7a := deduplicate (fun p => p.2.email) d6
  let d7 := deduplicate (fun p => p.2.student_code) d7a
  let d8 := d7.filter (fun p => validate_email p.2.email)
  { cleaned := d8
    errors := emailErrs ++ gpaErrs ++ deptErrs ++ genderErrs
    dedupRemoved := (d6.length - d7a.length) + (d7a.length - d7.length)
    invalidRemoved := d7.length - d8.length }

/-! ### Data model of the loader (`load.py`)

The PostgreSQL store is modelled as an explicit in-memory state; each SQL
statement of `load.py` becomes a pure state transition.  Timestamps
(`CURRENT_TIMESTAMP`) are an abstract `now : Nat` carried by the state. -/

/-- One record handed to `upsert_student` (`row.to_dict()`; `.get` of a
missing key yields `None`, i.e. `none`). -/
structure StudentData where
  student_code : Option String
  first_name : Option String
  last_name : Option String
  email : Option String
  date_of_birth : Option String
  gender : Option String
  phone : Option String
  department_code : Option String
  graduation_year : Option Int
  gpa : Option ℚ
deriving DecidableEq, Repr

/-- A stored row of the `students` table. -/
structure DBStudent where
  student_id : Nat
  student_code : Option String
  first_name : Option String
  last_name : Option String
  email : Option String
  date_of_birth : Option String
  gender : Option String
  phone : Option String
  department_id : Option Nat
  graduation_year : Option Int
  gpa : Option ℚ
  status : String
  updated_at : Nat
deriving DecidableEq, Repr

/-- A stored row of the `courses` table. -/
structure DBCourse where
  course_id : Nat
  course_code : String
  course_name : String
  credits : Int
  department_id : Nat
  max_enrollment : Int
  updated_at : Nat
deriving DecidableEq, Repr

/-- The relational store: the fixed `departments` reference table (id, code),
the `students` and `courses` tables, an id sequence and a clock. -/
structure DBState where
  departments : List (Nat × String)
  students : List DBStudent
  courses : List DBCourse
  nextId : Nat
  now : Nat
deriving DecidableEq, Repr

/-- `DatabaseLoader.get_department_id`: NaN code yields `None`, else look the
code up in the reference table. -/
def get_department_id (db : DBState) (code : Option String) : Option Nat :=
  match code with
  | none => none
  | some c => (db.departments.find? (fun p => p.2 = c)).map Prod.fst

/-- The existence check `WHERE email = %s OR student_code = %s` under SQL
`NULL` semantics: a `NULL` parameter matches nothing. -/
def studentMatch (d : StudentData) (s : DBStudent) : Bool :=
  (d.email.isSome && decide (s.email = d.email)) ||
    (d.student_code.isSome && decide (s.student_code = d.student_code))

/-- `SELECT student_id FROM students WHERE email = %s OR student_code = %s`
(first matching row). -/
def findMatch (db : DBState) (d : StudentData) : Option DBStudent :=
  db.students.find? (studentMatch d)

/-- The `UPDATE students SET f = COALESCE(%s, f) ... updated_at =
CURRENT_TIMESTAMP` statement applied to the matched row: a `NULL` input value
leaves the stored field unchanged; `email`, `student_code`, `status` are not
in the SET list. -/
def coalesceUpdate (d : StudentData) (deptId : Option Nat) (now : Nat)
    (s : DBStudent) : DBStudent :=
  { s with
    first_name := d.first_name.or s.first_name
    last_name := d.last_name.or s.last_name
    date_of_birth := d.date_of_birth.or s.date_of_birth
    gender := d.gender.or s.gender
    phone := d.phone.or s.phone
    department_id := deptId.or s.department_id
    graduation_year := d.graduation_year.or s.graduation_year
    gpa := d.gpa.or s.gpa
    updated_at := now }

/-- Modelled from the spec: the `students` table schema is provisioned by SQL
scripts that are not under `src/`.  §6 gives unique `email` and unique
`student_code`; §4.2 states that a record without a resolvable contact
identity "cannot be loaded", i.e. `email` is NOT NULL.  A unique-key conflict
is unreachable at the insert because the preceding existence check matches on
the same keys, so the constraint an `INSERT` can still violate is the
NOT NULL on `email`; the raised error is returned as the failure reason. -/
def insertCheck (d : StudentData) : Option String :=
  if d.email.isNone then
    some "null value in column email violates not-null constraint"
  else none

/-- `DatabaseLoader.upsert_student`, one call executed on a healthy
(non-aborted) transaction: returns `(success, student_id, message)` as in the
source plus the successor store; a statement failure is caught and reported
by the `except` branch (lines 231–233) with the store unchanged.  The source
issues no rollback and uses no savepoint after such a failure, so on a real
connection the failed statement leaves the open transaction aborted — that
layer is modelled on top of this step function by `upsert_student_tx`. -/
def upsert_student (db : DBState) (d : StudentData) :
    (Bool × Option Nat × String) × DBState :=
  let deptId := get_department_id db d.department_code
  match findMatch db d with
  | some s =>
    let s' := coalesceUpdate d deptId db.now s
    ((true, some s.student_id, "updated"),
      { db with
        students := db.students.map
          (fun t => if t.student_id = s.student_id then s' else t) })
  | none =>
    match insertCheck d with
    | some msg => ((false, none, msg), db)
    | none =>
      let srow : DBStudent :=
        { student_id := db.nextId
          student_code := d.student_code
          first_name := d.first_name
          last_name := d.last_name
          email := d.email
          date_of_birth := d.date_of_birth
          gender := d.gender
          phone := d.phone
          department_id := deptId
          graduation_year := d.graduation_year
          gpa := d.gpa
          status := "Active"
          updated_at := db.now }
      ((true, some db.nextId, "inserted"),
        { db with students := db.students ++ [srow], nextId := db.nextId + 1 })

/-- One record handed to `upsert_course`. -/
structure CourseData where
  course_code : String
  course_name : String
  credits : Int
  department_code : String
  max_enrollment : Option Int
deriving DecidableEq, Repr

/-- `DatabaseLoader.upsert_course`: department lookup miss is a per-record
failure; `ON CONFLICT (course_code) DO UPDATE` overwrites name, credits and
max_enrollment unconditionally and refreshes `updated_at` (it does not touch
`department_id`). -/
def upsert_course (db : DBState) (d : CourseData) : (Bool × String) × DBState :=
  match db.departments.find? (fun p => p.2 = d.department_code) with
  | none => ((false, "Department not found"), db)
  | some dept =>
    match db.courses.find? (fun c => c.course_code = d.course_code) with
    | some c =>
      let c' : DBCourse :=
        { c with
          course_name := d.course_name
          credits := d.credits
          max_enrollment := d.max_enrollment.getD 30
          updated_at := db.now }
      ((true, "upserted"),
        { db with
          courses := db.courses.map
            (fun t => if t.course_id = c.course_id then c' else t) })
    | none =>
      ((true, "upserted"),
        { db with
          courses := db.courses ++
            [{ course_id := db.nextId
               course_code := d.course_code
               course_name := d.course_name
               credits := d.credits
               department_id := dept.1
               max_enrollment := d.max_enrollment.getD 30
               updated_at := db.now }]
          nextId := db.nextId + 1 })

/-- One entry of `stats['errors']` in `load_students_batch`. -/
structure LoadErr where
  row : Nat
  email : Option String
  err : String
deriving DecidableEq, Repr

/-- The `stats` dictionary of `load_students_batch`. -/
structure BatchStats where
  total : Nat
  inserted : Nat
  updated : Nat
  failed : Nat
  errors : List LoadErr
deriving DecidableEq, Repr

/-- Result of `load_students_batch`: the statistics, the store after the
final commit performed by `get_connection` on clean exit, and — as
instrumentation of the commit timing — the count of processed-but-uncommitted
records observed just after each record (before the batch-commit check). -/
structure LoadResult where
  stats : BatchStats
  db : DBState
  peaks : List Nat
deriving DecidableEq, Repr

/-- The stats-update block of the loop body of `load_students_batch`:
success increments `inserted` or `updated` according to the message, failure
increments `failed` and appends a `{row, email, error}` entry. -/
def statsUpdate (stats : BatchStats) (idx : Nat) (email : Option String)
    (res : Bool × Option Nat × String) : BatchStats :=
  if res.1 then
    if res.2.2 = "inserted" then { stats with inserted := stats.inserted + 1 }
    else { stats with updated := stats.updated + 1 }
  else
    { stats with
      failed := stats.failed + 1
      errors := stats.errors ++ [⟨idx, email, res.2.2⟩] }

/-- The `for idx, row in df.iterrows()` loop of `load_students_batch`:
`c` counts records processed since the last commit; the in-loop commit fires
when `(idx + 1) % batch_size == 0`, `idx` being the row's index label. -/
def load_students_go (batchSize : Nat) :
    List (Nat × StudentData) → DBState → Nat → BatchStats → List Nat → LoadResult
  | [], db, _c, stats, peaks => ⟨stats, db, peaks.reverse⟩
  | (idx, d) :: rest, db, c, stats, peaks =>
    let r := upsert_student db d
    if (idx + 1) % batchSize = 0 then
      load_students_go batchSize rest r.2 0
        (statsUpdate stats idx d.email r.1) ((c + 1) :: peaks)
    else
      load_students_go batchSize rest r.2 (c + 1)
        (statsUpdate stats idx d.email r.1) ((c + 1) :: peaks)

/-- `DatabaseLoader.load_students_batch` (default `batch_size=100`): upserts
one record at a time on a single connection, committing in batches; the
per-record failure branch only increments `failed` and appends an error
entry.  This form records the loop's bookkeeping and commit timing (the
label-based commit test and the `peaks` instrumentation); the durable effect
of those commits under PostgreSQL's aborted-transaction semantics is
modelled by `load_students_batch_tx` below. -/
def load_students_batch (db : DBState) (df : List (Nat × StudentData))
    (batchSize : Nat := 100) : LoadResult :=
  load_students_go batchSize df db 0 ⟨df.length, 0, 0, 0, []⟩ []

/-- An open psycopg2 connection as `get_connection` holds it (autocommit
off): the store as visible inside the current transaction, the last durably
committed store, and whether the current transaction is in the aborted
state. -/
structure PgConn where
  db : DBState
  committed : DBState
  aborted : Bool
deriving DecidableEq, Repr

/-- The error PostgreSQL raises for every statement sent inside an aborted
transaction, until a rollback (or commit, which the server turns into a
rollback) ends it. -/
def abortedTxnMsg : String :=
  "current transaction is aborted, commands ignored until end of transaction block"

/-- `conn.commit()`: committing an aborted transaction is a rollback — the
working state reverts to the last committed one; otherwise the working state
becomes durable.  Either way a fresh transaction begins. -/
def pgCommit (c : PgConn) : PgConn :=
  if c.aborted then ⟨c.committed, c.committed, false⟩
  else ⟨c.db, c.db, false⟩

/-- `upsert_student` as executed on the open connection: inside an aborted
transaction the call's first `cursor.execute` (the department or existence
SELECT) raises `abortedTxnMsg`, which the `except` branch reports as that
record's failure; on a healthy transaction the call behaves as
`upsert_student`, and a statement failure leaves the transaction aborted
because `load.py` performs no rollback and uses no savepoint. -/
def upsert_student_tx (c : PgConn) (d : StudentData) :
    (Bool × Option Nat × String) × PgConn :=
  if c.aborted then ((false, none, abortedTxnMsg), c)
  else
    let r := upsert_student c.db d
    (r.1, { c with db := r.2, aborted := !r.1.1 })

/-- The loop of `load_students_batch` run over the transactional connection:
the in-loop commit at `(idx + 1) % batch_size == 0` ends the transaction
(clearing an abort by rolling back), and `get_connection` commits once more
on clean exit. -/
def load_students_tx_go (batchSize : Nat) :
    List (Nat × StudentData) → PgConn → BatchStats → BatchStats × PgConn
  | [], c, stats => (stats, pgCommit c)
  | (idx, d) :: rest, c, stats =>
    let r := upsert_student_tx c d
    let stats' := statsUpdate stats idx d.email r.1
    if (idx + 1) % batchSize = 0 then
      load_students_tx_go batchSize rest (pgCommit r.2) stats'
    else
      load_students_tx_go batchSize rest r.2 stats'

/-- `DatabaseLoader.load_students_batch` with the PostgreSQL transaction
semantics of the underlying connection: returns the statistics and the
durably committed store after the final commit. -/
def load_students_batch_tx (db : DBState) (df : List (Nat × StudentData))
    (batchSize : Nat := 100) : BatchStats × DBState :=
  let r := load_students_tx_go batchSize df ⟨db, db, false⟩ ⟨df.length, 0, 0, 0, []⟩
  (r.1, r.2.committed)

/-! ### The pipeline orchestrator (`etl.py`)

`ETLPipeline.run` is embedded as a pure function over an environment
capturing the external effects: the outcome of the extractor call, the
connection test, the initial store, and the two clock readings taken at the
start and end of `run`.  A raw table may lack the `email` column — then
`transform_students`'s unguarded step-8 access `df['email']` raises a
`KeyError`, which is the structural transform failure `run` catches. -/

/-- A raw extracted table: its rows plus whether the `email` column exists. -/
structure RawTable where
  hasEmailCol : Bool
  rows : Frame
deriving Repr

/-- The environment of one `run()` invocation. -/
structure ETLEnv where
  extractResult : Except String RawTable
  connectionOk : Bool
  db : DBState
  t0 : Nat
  t1 : Nat

/-- `pipeline_stats` as returned by `run()`, with instrumentation flags
recording whether the transform / load phases were entered at all. -/
structure PipelineStats where
  start_time : Option Nat
  end_time : Option Nat
  duration : Option Int
  extract_count : Nat
  transform_count : Nat
  load_stats : Option BatchStats
  errors : List (String × String)
  ranTransform : Bool
  ranLoad : Bool
deriving Repr

/-- `row.to_dict()` for a transformed row: keys absent from the embedded
schema (`date_of_birth`, `phone`, `graduation_year`) read as `None`; the gpa
cell is numeric-or-NaN after the transform. -/
def rowToData (r : StudentRow) : StudentData :=
  { student_code := r.student_code
    first_name := r.first_name
    last_name := r.last_name
    email := r.email
    date_of_birth := none
    gender := r.gender
    phone := none
    department_code := r.department_code
    graduation_year := none
    gpa := toNumeric r.gpa }

/-- `ETLPipeline.run`: extract, then transform only on extract success, then
load only on transform success; each phase failure appends a
`{phase, error}` entry; start/end times and duration are set unconditionally
around the phases and the stats object is always returned. -/
def etl_run (env : ETLEnv) : PipelineStats :=
  let s0 : PipelineStats :=
    { start_time := some env.t0
      end_time := none
      duration := none
      extract_count := 0
      transform_count := 0
      load_stats := none
      errors := []
      ranTransform := false
      ranLoad := false }
  let step1 : Bool × PipelineStats × RawTable :=
    match env.extractResult with
    | .ok t => (true, { s0 with extract_count := t.rows.length }, t)
    | .error m =>
      (false, { s0 with errors := s0.errors ++ [("extract", m)] }, ⟨false, []⟩)
  let extractOk := step1.1
  let s1 := step1.2.1
  let raw := step1.2.2
  let step2 : Bool × PipelineStats × Frame :=
    if extractOk then
      if raw.hasEmailCol then
        let tr := transform_students raw.rows
        (true,
          { s1 with ranTransform := true, transform_count := tr.cleaned.length },
          tr.cleaned)
      else
        (false,
          { s1 with
            ranTransform := true
            errors := s1.errors ++ [("transform", "KeyError: email")] },
          [])
    else (false, s1, [])
  let transformOk := step2.1
  let s2 := step2.2.1
  let cleaned := step2.2.2
  let s3 :=
    if transformOk then
      if cleaned.length = 0 then { s2 with ranLoad := true }
      else if !env.connectionOk then
        { s2 with
          ranLoad := true
          errors := s2.errors ++ [("load", "Database connection test failed")] }
      else
        let lr := load_students_batch env.db (cleaned.map (fun p => (p.1, rowToData p.2)))
        { s2 with ranLoad := true, load_stats := some lr.stats }
    else s2
  { s3 with end_time := some env.t1, duration := some ((env.t1 : Int) - (env.t0 : Int)) }

/-! ### Concrete example inputs used by witnesses and counterexamples -/

/-- A student row with the given code, email and gpa; the remaining fields
are valid constants. -/
def mkRow (code email : Option String) (g : GCell) : StudentRow :=
  ⟨code, some "Ann", some "Lee", email, g, some "CS", some "Other"⟩

/-- A clean load record with the given code and email. -/
def mkData (code email : Option String) : StudentData :=
  ⟨code, some "Ann", some "Lee", email, none, none, none, some "CS", none, some 3⟩

/-- A store holding only the department reference table. -/
def exDB : DBState := ⟨[(1, "CS")], [], [], 10, 0⟩

/-- Two rows sharing the same invalid email. -/
def exDf2 : Frame :=
  [(0, mkRow none (some "bad") .absent), (1, mkRow none (some "bad") .absent)]

/-- Two distinct records (different valid emails), both with an absent
student code. -/
def exDfC10 : Frame :=
  [(0, mkRow none (some "a@x.com") .absent), (1, mkRow none (some "b@x.com") .absent)]

/-- Ten records labelled 1..10; record #5 has no email and therefore fails
the modelled NOT NULL constraint at insert. -/
def exDf10 : List (Nat × StudentData) :=
  [(1, mkData (some "C1") (some "e1@x.com")),
   (2, mkData (some "C2") (some "e2@x.com")),
   (3, mkData (some "C3") (some "e3@x.com")),
   (4, mkData (some "C4") (some "e4@x.com")),
   (5, mkData (some "C5") none),
   (6, mkData (some "C6") (some "e6@x.com")),
   (7, mkData (some "C7") (some "e7@x.com")),
   (8, mkData (some "C8") (some "e8@x.com")),
   (9, mkData (some "C9") (some "e9@x.com")),
   (10, mkData (some "C0") (some "e10@x.com"))]

/-- Three records whose index labels have gaps (0, 2, 4), as produced by the
transformer after it drops rows without resetting the index. -/
def exDfGap : List (Nat × StudentData) :=
  [(0, mkData (some "A1") (some "a@x.com")),
   (2, mkData (some "B1") (some "b@x.com")),
   (4, mkData (some "D1") (some "d@x.com"))]

/-- A stored student row (matched by `student_code` in the update examples). -/
def exStudent : DBStudent :=
  ⟨1, some "S1", some "Old", some "Name", some "a@x.com", none, none, none,
    none, none, none, "Active", 0⟩

/-- A store holding one student. -/
def exDB2 : DBState := ⟨[(1, "CS")], [exStudent], [], 10, 7⟩

/-- An update record that matches `exStudent` on student_code while providing
a different email; last name and most fields are absent. -/
def exPatch : StudentData :=
  ⟨some "S1", some "New", none, some "different@x.com", none, none, none,
    none, none, some 2⟩

/-- A one-row table whose single record has a valid email and a GPA of 5.0. -/
def exDfG : Frame := [(0, mkRow (some "S1") (some "a@x.com") (.num 5))]

/-- Three records with the default contiguous labels 0..2. -/
def exDfGap0 : List (Nat × StudentData) :=
  [(0, mkData (some "A1") (some "a@x.com")),
   (1, mkData (some "B1") (some "b@x.com")),
   (2, mkData (some "D1") (some "d@x.com"))]

/-- The full per-row transformation of `transform_students` before
deduplication: steps 1, 3, 5 and 6 composed. -/
def rowTransform (r : StudentRow) : StudentRow :=
  step6Cast (step5Gender (step3Gpa (step1Clean r)))

/-! ## Helper lemmas -/

theorem nodup_key_eq {α β : Type} [DecidableEq β] {l : List α} {key : α → β}
    (h : (l.map key).Nodup) {a b : α} (ha : a ∈ l) (hb : b ∈ l)
    (hk : key a = key b) : a = b := by
  induction l with
  | nil => cases ha
  | cons x xs ih =>
    rw [List.map_cons, List.nodup_cons] at h
    rcases List.mem_cons.mp ha with rfl | ha' <;>
      rcases List.mem_cons.mp hb with rfl | hb'
    · rfl
    · exact absurd (by rw [hk]; exact List.mem_map_of_mem key hb') h.1
    · exact absurd (by rw [← hk]; exact List.mem_map_of_mem key ha') h.1
    · exact ih h.2 ha' hb'

theorem countP_eq_zero_of_key_not_mem {α : Type} {l : List (Nat × α)} {i : Nat}
    (h : i ∉ l.map Prod.fst) (Q : Nat × α → Bool) :
    l.countP (fun p => decide (p.1 = i) && Q p) = 0 := by
  apply List.countP_eq_zero.mpr
  intro p hp
  have hne : p.1 ≠ i := fun hEq => h (hEq ▸ List.mem_map_of_mem Prod.fst hp)
  simp [hne]

theorem countP_nodup_key {α : Type} {l : List (Nat × α)}
    (h : (l.map Prod.fst).Nodup) {i : Nat} {a : α} (ha : (i, a) ∈ l)
    (Q : Nat × α → Bool) :
    l.countP (fun p => decide (p.1 = i) && Q p) = if Q (i, a) then 1 else 0 := by
  induction l with
  | nil => cases ha
  | cons x xs ih =>
    rw [List.map_cons, List.nodup_cons] at h
    rcases List.mem_cons.mp ha with rfl | ha'
    · rw [List.countP_cons]
      have h0 : xs.countP (fun p => decide (p.1 = i) && Q p) = 0 :=
        countP_eq_zero_of_key_not_mem h.1 Q
      by_cases hq : Q (i, a) <;> simp [h0, hq]
    · have hx : x.1 ≠ i := fun hEq => h.1 (hEq ▸ List.mem_map_of_mem Prod.fst ha')
      rw [List.countP_cons]
      simp [hx, ih h.2 ha']

theorem dropDuplicatesGo_sublist {α β : Type} [DecidableEq β] (key : α → β)
    (xs : List α) : ∀ seen : List β, List.Sublist (dropDuplicatesGo key xs seen) xs := by
  induction xs with
  | nil => intro seen; simp [dropDuplicatesGo]
  | cons x xs ih =>
    intro seen
    rw [dropDuplicatesGo]
    by_cases hm : key x ∈ seen
    · rw [if_pos hm]; exact (ih seen).cons x
    · rw [if_neg hm]; exact (ih _).cons₂ x

theorem deduplicate_sublist {α β : Type} [DecidableEq β] (key : α → β)
    (xs : List α) : List.Sublist (deduplicate key xs) xs :=
  dropDuplicatesGo_sublist key xs []

theorem filter_dropDuplicatesGo_of_mem {α β : Type} [DecidableEq β]
    (key : α → β) (k : β) (xs : List α) :
    ∀ seen : List β, k ∈ seen →
      (dropDuplicatesGo key xs seen).filter (fun x => decide (key x = k)) = [] := by
  induction xs with
  | nil => intro seen _; simp [dropDuplicatesGo]
  | cons x xs ih =>
    intro seen hk
    rw [dropDuplicatesGo]
    by_cases hm : key x ∈ seen
    · rw [if_pos hm]; exact ih seen hk
    · rw [if_neg hm]
      have hne : key x ≠ k := fun h => hm (h ▸ hk)
      rw [List.filter_cons_of_neg (by simp [hne])]
      exact ih _ (List.mem_cons_of_mem _ hk)

theorem filter_dropDuplicatesGo_of_not_mem {α β : Type} [DecidableEq β]
    (key : α → β) (k : β) (xs : List α) :
    ∀ seen : List β, k ∉ seen →
      (dropDuplicatesGo key xs seen).filter (fun x => decide (key x = k))
        = (xs.filter (fun x => decide (key x = k))).take 1 := by
  induction xs with
  | nil => intro seen _; simp [dropDuplicatesGo]
  | cons x xs ih =>
    intro seen hk
    rw [dropDuplicatesGo]
    by_cases hm : key x ∈ seen
    · rw [if_pos hm]
      have hne : key x ≠ k := fun h => hk (h ▸ hm)
      rw [ih seen hk, List.filter_cons_of_neg (by simp [hne])]
    · rw [if_neg hm]
      by_cases he : key x = k
      · rw [List.filter_cons_of_pos (by simp [he]),
          List.filter_cons_of_pos (by simp [he]),
          filter_dropDuplicatesGo_of_mem key k xs _
            (by rw [he]; exact List.mem_cons_self k seen)]
        simp
      · rw [List.filter_cons_of_neg (by simp [he]),
          List.filter_cons_of_neg (by simp [he])]
        exact ih _ (fun h =>
          (List.mem_cons.mp h).elim (fun h1 => he h1.symm) hk)

theorem deduplicate_filter_key {α β : Type} [DecidableEq β]
    (key : α → β) (k : β) (xs : List α) :
    (deduplicate key xs).filter (fun x => decide (key x = k))
      = (xs.filter (fun x => decide (key x = k))).take 1 :=
  filter_dropDuplicatesGo_of_not_mem key k xs [] (List.not_mem_nil k)

theorem gpaCast_gpaCoerce (g : GCell) : gpaCast (gpaCoerce g) = gpaCoerce g := by
  unfold gpaCoerce
  cases h : toNumeric g with
  | none => simp [gpaCast, toNumeric]
  | some q => simp [gpaCast, toNumeric]

theorem rowTransform_email (r : StudentRow) :
    (rowTransform r).email = normalize_email r.email := rfl

theorem rowTransform_gpa (r : StudentRow) :
    (rowTransform r).gpa = gpaCoerce r.gpa := by
  show gpaCast (gpaCoerce r.gpa) = gpaCoerce r.gpa
  exact gpaCast_gpaCoerce r.gpa

/-- The cleaned table of `transform_students`, re-expressed as per-row
transformation, two dedup passes and the final email filter. -/
theorem transform_students_cleaned_eq (df : Frame) :
    (transform_students df).cleaned
      = (deduplicate (fun p => p.2.student_code)
          (deduplicate (fun p => p.2.email)
            (df.map (fun p => (p.1, rowTransform p.2))))).filter
          (fun p => validate_email p.2.email) := by
  simp only [transform_students, rowTransform, List.map_map, Function.comp]
  rfl

/-- Exact row accounting: cleaned rows plus dedup removals plus final-filter
removals give back the input count. -/
theorem transform_students_count (df : Frame) :
    (transform_students df).cleaned.length + (transform_students df).dedupRemoved
      + (transform_students df).invalidRemoved = df.length := by
  simp only [transform_students]
  set d6 := ((((df.map (fun p => (p.1, step1Clean p.2))).map
    (fun p => (p.1, step3Gpa p.2))).map
    (fun p => (p.1, step5Gender p.2))).map
    (fun p => (p.1, step6Cast p.2))) with hd6
  have h6 : d6.length = df.length := by simp [hd6]
  have h7a := List.Sublist.length_le (deduplicate_sublist (fun p => p.2.email) d6)
  have h7 := List.Sublist.length_le (deduplicate_sublist (fun p => p.2.student_code)
    (deduplicate (fun p => p.2.email) d6))
  have h8 := List.length_filter_le (fun p => validate_email p.2.email)
    (deduplicate (fun p => p.2.student_code) (deduplicate (fun p => p.2.email) d6))
  omega

/-- The error report of `transform_students`, re-expressed as the four
per-step error lists over the input rows. -/
theorem transform_students_errors_eq (df : Frame) :
    (transform_students df).errors
      = ((df.map (fun p => (p.1, step1Clean p.2))).filter
            (fun p => !validate_email p.2.email)).map
            (fun p => VError.mk p.1 "email" "Invalid email format")
        ++ ((df.map (fun p => (p.1, step1Clean p.2))).filter
            (fun p => !validate_gpa p.2.gpa)).map
            (fun p => VError.mk p.1 "gpa" "Invalid GPA (must be 0.0-4.0)")
        ++ ((df.map (fun p => (p.1, step3Gpa (step1Clean p.2)))).filter
            (fun p => deptErrorP p.2.department_code)).map
            (fun p => VError.mk p.1 "department_code" "Invalid department code")
        ++ ((df.map (fun p => (p.1, step5Gender (step3Gpa (step1Clean p.2))))).filter
            (fun p => genderErrorP p.2.gender)).map
            (fun p => VError.mk p.1 "gender" "Invalid gender") := by
  simp only [transform_students, List.map_map, Function.comp]
  rfl

theorem statsUpdate_total (stats : BatchStats) (idx : Nat) (email : Option String)
    (res : Bool × Option Nat × String) :
    (statsUpdate stats idx email res).total = stats.total := by
  unfold statsUpdate
  split
  · split <;> rfl
  · rfl

theorem statsUpdate_sum (stats : BatchStats) (idx : Nat) (email : Option String)
    (res : Bool × Option Nat × String) :
    (statsUpdate stats idx email res).inserted + (statsUpdate stats idx email res).updated
        + (statsUpdate stats idx email res).failed
      = stats.inserted + stats.updated + stats.failed + 1 := by
  unfold statsUpdate
  split
  · split <;> simp <;> omega
  · simp
    omega

theorem statsUpdate_errors (stats : BatchStats) (idx : Nat) (email : Option String)
    (res : Bool × Option Nat × String) :
    (statsUpdate stats idx email res).errors.length + stats.failed
      = stats.errors.length + (statsUpdate stats idx email res).failed := by
  unfold statsUpdate
  split
  · split <;> rfl
  · simp
    omega

/-- Accounting invariant of the load loop: `total` is never touched, every
processed record increments exactly one of inserted/updated/failed, and the
error list grows in lockstep with `failed`. -/
theorem load_go_stats (bs : Nat) (rest : List (Nat × StudentData)) :
    ∀ (db : DBState) (c : Nat) (stats : BatchStats) (peaks : List Nat),
      ((load_students_go bs rest db c stats peaks).stats.total = stats.total) ∧
      ((load_students_go bs rest db c stats peaks).stats.inserted
          + (load_students_go bs rest db c stats peaks).stats.updated
          + (load_students_go bs rest db c stats peaks).stats.failed
        = stats.inserted + stats.updated + stats.failed + rest.length) ∧
      ((load_students_go bs rest db c stats peaks).stats.errors.length
          + stats.failed
        = (load_students_go bs rest db c stats peaks).stats.failed
          + stats.errors.length) := by
  induction rest with
  | nil =>
    intro db c stats peaks
    refine ⟨rfl, by simp [load_students_go], by simp [load_students_go]; omega⟩
  | cons x rest ih =>
    intro db c stats peaks
    obtain ⟨idx, d⟩ := x
    rw [load_students_go]
    have hu := statsUpdate_total stats idx d.email (upsert_student db d).1
    have hs := statsUpdate_sum stats idx d.email (upsert_student db d).1
    have he := statsUpdate_errors stats idx d.email (upsert_student db d).1
    by_cases hc : (idx + 1) % bs = 0
    · rw [if_pos hc]
      have h := ih (upsert_student db d).2 0
        (statsUpdate stats idx d.email (upsert_student db d).1) ((c + 1) :: peaks)
      refine ⟨by rw [h.1, hu], ?_, ?_⟩
      · rw [h.2.1, List.length_cons]; omega
      · have := h.2.2
        omega
    · rw [if_neg hc]
      have h := ih (upsert_student db d).2 (c + 1)
        (statsUpdate stats idx d.email (upsert_student db d).1) ((c + 1) :: peaks)
      refine ⟨by rw [h.1, hu], ?_, ?_⟩
      · rw [h.2.1, List.length_cons]; omega
      · have := h.2.2
        omega

theorem succ_mod_of_ne {k bs : Nat} (hbs : 0 < bs) (h : (k + 1) % bs ≠ 0) :
    (k + 1) % bs = k % bs + 1 := by
  have hadd : (k + 1) % bs = (k % bs + 1 % bs) % bs := Nat.add_mod k 1 bs
  rcases Nat.lt_or_ge 1 bs with h1 | h1
  · rw [Nat.mod_eq_of_lt h1] at hadd
    have hmod : k % bs < bs := Nat.mod_lt k hbs
    rcases Nat.eq_or_lt_of_le (Nat.succ_le_of_lt hmod) with heq | hlt
    · exfalso
      apply h
      have hb : k % bs + 1 = bs := by omega
      rw [hadd, hb, Nat.mod_self]
    · rw [hadd, Nat.mod_eq_of_lt hlt]
  · exfalso
    apply h
    have hb1 : bs = 1 := by omega
    simp [hb1, Nat.mod_one]

/-- With contiguous 0-based labels starting at `k` and an uncommitted count of
`k % bs`, the per-record uncommitted counts are `j % bs + 1` for each
subsequent label `j`. -/
theorem load_go_peaks (bs : Nat) (hbs : 0 < bs) (rest : List (Nat × StudentData)) :
    ∀ (k : Nat) (db : DBState) (stats : BatchStats) (peaks : List Nat),
      rest.map Prod.fst = List.range' k rest.length →
      (load_students_go bs rest db (k % bs) stats peaks).peaks
        = peaks.reverse ++ (List.range' k rest.length).map (fun j => j % bs + 1) := by
  induction rest with
  | nil =>
    intro k db stats peaks _
    simp [load_students_go]
  | cons x rest ih =>
    intro k db stats peaks h
    obtain ⟨idx, d⟩ := x
    rw [List.length_cons, List.range'_succ, List.map_cons] at h
    have hidx : idx = k := (List.cons.injEq _ _ _ _ ▸ h).1
    have hrest : rest.map Prod.fst = List.range' (k + 1) rest.length :=
      (List.cons.injEq _ _ _ _ ▸ h).2
    subst hidx
    rw [load_students_go]
    by_cases hc : (idx + 1) % bs = 0
    · rw [if_pos hc]
      have h0 : (0 : Nat) = (idx + 1) % bs := hc.symm
      rw [h0, ih (idx + 1) _ _ _ hrest]
      rw [List.length_cons, List.range'_succ, List.map_cons, List.reverse_cons]
      simp [List.append_assoc]
    · rw [if_neg hc]
      have hstep : idx % bs + 1 = (idx + 1) % bs := (succ_mod_of_ne hbs hc).symm
      rw [hstep, ih (idx + 1) _ _ _ hrest]
      rw [List.length_cons, List.range'_succ, List.map_cons, List.reverse_cons]
      simp only [List.append_assoc, List.singleton_append, List.cons_append]
      rw [succ_mod_of_ne hbs hc]
      simp

/-- A cleaned row of `transform_students` is the per-row transform of some
input row with the same index label. -/
theorem mem_cleaned_mem_map {df : Frame} {p : Nat × StudentRow}
    (hp : p ∈ (transform_students df).cleaned) :
    p ∈ df.map (fun q => (q.1, rowTransform q.2)) := by
  rw [transform_students_cleaned_eq] at hp
  have h8 := (List.filter_sublist _).subset hp
  have h7 := (deduplicate_sublist (fun q : Nat × StudentRow => q.2.student_code) _).subset h8
  exact (deduplicate_sublist (fun q : Nat × StudentRow => q.2.email) _).subset h7

/-- Every cleaned row passes email validation (it survived the final filter). -/
theorem mem_cleaned_validate {df : Frame} {p : Nat × StudentRow}
    (hp : p ∈ (transform_students df).cleaned) :
    validate_email p.2.email = true := by
  rw [transform_students_cleaned_eq] at hp
  exact (List.mem_filter.mp hp).2

theorem step1Clean_gpa (r : StudentRow) : (step1Clean r).gpa = r.gpa := rfl

/-- With distinct index labels, a label-`i` row of the mapped table is the
transform of the label-`i` input row. -/
theorem mem_map_nodup_eq {df : Frame} (h : (df.map Prod.fst).Nodup)
    {i : Nat} {r₀ r : StudentRow} (h₀ : (i, r₀) ∈ df)
    (hr : (i, r) ∈ df.map (fun q => (q.1, rowTransform q.2))) :
    r = rowTransform r₀ := by
  rcases List.mem_map.mp hr with ⟨q, hq, heq⟩
  obtain ⟨h1, h2⟩ := Prod.mk.injEq _ _ _ _ ▸ heq
  have hq' : q = (i, r₀) := nodup_key_eq h hq h₀ (by simpa using h1)
  rw [← h2, hq']

/-- Error entries of a column other than "gpa" contribute nothing to the
per-row gpa error count. -/
theorem countP_errs_ne_col (col msg : String) (hcol : col ≠ "gpa")
    (l : List (Nat × StudentRow)) (i : Nat) :
    (l.map (fun p => VError.mk p.1 col msg)).countP
      (fun e => decide (e.row = i) && decide (e.column = "gpa")) = 0 := by
  rw [List.countP_map]
  apply List.countP_eq_zero.mpr
  intro p _
  simp [Function.comp, hcol]

/-- The gpa error entries for row `i` count the input rows with label `i`
whose gpa fails validation. -/
theorem countP_errs_gpa (df : Frame) (i : Nat) :
    (((df.map (fun p => (p.1, step1Clean p.2))).filter
        (fun p => !validate_gpa p.2.gpa)).map
        (fun p => VError.mk p.1 "gpa" "Invalid GPA (must be 0.0-4.0)")).countP
      (fun e => decide (e.row = i) && decide (e.column = "gpa"))
      = df.countP (fun p => decide (p.1 = i) && !validate_gpa p.2.gpa) := by
  rw [List.countP_map, List.countP_filter, List.countP_map]
  apply List.countP_congr
  intro p _
  simp [Function.comp, step1Clean_gpa]

/-- The report returned by `run()` always carries start time, end time and
duration, on every control path. -/
theorem etl_run_timing (env : ETLEnv) :
    (etl_run env).start_time = some env.t0 ∧
    (etl_run env).end_time = some env.t1 ∧
    (etl_run env).duration = some ((env.t1 : Int) - (env.t0 : Int)) := by
  obtain ⟨ex, conn, db, t0, t1⟩ := env
  cases ex with
  | error m =>
    refine ⟨?_, ?_, ?_⟩ <;> simp [etl_run]
  | ok t =>
    by_cases hcol : t.hasEmailCol = true
    · by_cases hlen : (transform_students t.rows).cleaned.length = 0
      · refine ⟨?_, ?_, ?_⟩ <;> simp [etl_run, hcol, hlen]
      · cases conn
        · refine ⟨?_, ?_, ?_⟩ <;> simp [etl_run, hcol, hlen]
        · refine ⟨?_, ?_, ?_⟩ <;> simp [etl_run, hcol, hlen]
    · refine ⟨?_, ?_, ?_⟩ <;> simp [etl_run, hcol]

/-! ## The claims -/

/-- C6: the spec says `validate_phone` strips whitespace, parentheses, dashes
and plus signs and accepts 10–15 remaining digits.  The source's character
class (line 77 of `transform.py`) is `[\s\-$$$$\+]` — a mangling of `\(\)` —
so parentheses are NOT stripped while dollar signs are: a standard
parenthesized 10-digit number is rejected, the same digits bare or decorated
with `$` are accepted, and absent/blank input is accepted. -/
theorem claim_C6 :
    validate_phone (some "(555) 123-4567") = false ∧
    validate_phone (some "5551234567") = true ∧
    validate_phone (some "$555-123-4567$") = true ∧
    validate_phone none = true ∧
    validate_phone (some "   ") = true := by
  decide

/-- C8: the department-code set and the gender set used by the transform
pipeline's validators coincide with the sets inside the API's
`StudentCreate` field validators. -/
theorem claim_C8 :
    (∀ s, s ∈ VALID_DEPARTMENTS ↔ s ∈ apiValidDepartments) ∧
    (∀ s, s ∈ VALID_GENDERS ↔ s ∈ apiValidGenders) := by
  refine ⟨fun s => ?_, fun s => ?_⟩
  · rw [show VALID_DEPARTMENTS = apiValidDepartments from rfl]
  · rw [show VALID_GENDERS = apiValidGenders from rfl]

/-- C10: `drop_duplicates` treats absent key values as duplicates of each
other: among the rows whose student_code (resp. email) is absent, only the
first survives deduplication (`filter = take 1`); concretely, a two-row table
of distinct records that both lack a student_code comes out of
`transform_students` with a single row. -/
theorem claim_C10 (df : Frame)
    (_hcode : 2 ≤ (df.filter (fun p => decide (p.2.student_code = none))).length) :
    ((deduplicate (fun p : Nat × StudentRow => p.2.student_code) df).filter
        (fun p => decide (p.2.student_code = none))
      = (df.filter (fun p => decide (p.2.student_code = none))).take 1) ∧
    ((deduplicate (fun p : Nat × StudentRow => p.2.email) df).filter
        (fun p => decide (p.2.email = none))
      = (df.filter (fun p => decide (p.2.email = none))).take 1) ∧
    (transform_students exDfC10).cleaned.length = 1 := by
  refine ⟨?_, ?_, by decide⟩
  · exact deduplicate_filter_key _ none df
  · exact deduplicate_filter_key _ none df

/-- Witness for C10 at a concrete two-row table with absent student codes. -/
theorem claim_C10_witness :
    2 ≤ (exDfC10.filter (fun p => decide (p.2.student_code = none))).length ∧
    ((deduplicate (fun p : Nat × StudentRow => p.2.student_code) exDfC10).filter
        (fun p => decide (p.2.student_code = none))
      = (exDfC10.filter (fun p => decide (p.2.student_code = none))).take 1) :=
  ⟨by decide, (claim_C10 exDfC10 (by decide)).1⟩

/-- C5 counterexample: the claim says the number of processed-but-uncommitted
records never exceeds one batch, for every input.  The in-loop commit
condition is `(idx + 1) % batch_size == 0` on the row's index label; on a
table whose labels have gaps (0, 2, 4 — the shape the transformer produces
after dropping rows), no in-loop commit ever fires with batch size 2 and the
uncommitted count reaches 3 > 2. -/
theorem claim_C5_counterexample :
    ¬ ∀ p ∈ (load_students_batch exDB exDfGap 2).peaks, p ≤ 2 := by
  decide

/-- C5 (amended): records are upserted one at a time on the single open
connection, and the commit fires when `(label + 1)` is divisible by the batch
size; when the index labels are the contiguous default range 0..n−1 this is
exactly a commit after every `batch_size`-th processed record, so the number
of processed-but-uncommitted records after the j-th record is `j % bs + 1`
and never exceeds one batch. -/
theorem claim_C5 (df : List (Nat × StudentData)) (db : DBState) (bs : Nat)
    (hbs : 0 < bs) (hlab : df.map Prod.fst = List.range df.length) :
    (load_students_batch db df bs).peaks
      = (List.range df.length).map (fun j => j % bs + 1) ∧
    ∀ p ∈ (load_students_batch db df bs).peaks, p ≤ bs := by
  have hlab' : df.map Prod.fst = List.range' 0 df.length := by
    rw [hlab, List.range_eq_range']
  have h0 : (0 : Nat) = 0 % bs := (Nat.zero_mod bs).symm
  have hpeaks : (load_students_batch db df bs).peaks
      = (List.range' 0 df.length).map (fun j => j % bs + 1) := by
    rw [load_students_batch, h0]
    rw [load_go_peaks bs hbs df 0 db _ [] hlab']
    simp
  constructor
  · rw [hpeaks, List.range_eq_range']
  · intro p hp
    rw [hpeaks] at hp
    rcases List.mem_map.mp hp with ⟨j, _, rfl⟩
    have := Nat.mod_lt j hbs
    omega

/-- Witness for C5 on a three-record table with default labels 0..2 and batch
size 2. -/
theorem claim_C5_witness :
    0 < 2 ∧ exDfGap0.map Prod.fst = List.range exDfGap0.length ∧
    ∀ p ∈ (load_students_batch exDB exDfGap0 2).peaks, p ≤ 2 := by
  refine ⟨by decide, by decide, ?_⟩
  exact (claim_C5 exDfGap0 exDB 2 (by decide) (by decide)).2

/-- C1: the claim — and spec §4.3 — requires a per-record failure not to
abort the batch or transaction, with every subsequent record still processed
and, for the ten-record input whose record #5 fails, stats
total 10 / inserted 9 / failed 1 and the other nine rows committed.  The
code catches the exception per record but never rolls back and uses no
savepoint, so under PostgreSQL's transaction semantics record #5's
constraint violation aborts the open transaction: records 6–10 all fail
with the aborted-transaction error, and the final commit of the aborted
transaction is a rollback — stats total 10 / inserted 4 / failed 6, with
nothing durably committed (the store is unchanged). -/
theorem claim_C1 :
    (load_students_batch_tx exDB exDf10).1
      = ⟨10, 4, 0, 6,
          [⟨5, none, "null value in column email violates not-null constraint"⟩,
           ⟨6, some "e6@x.com", abortedTxnMsg⟩,
           ⟨7, some "e7@x.com", abortedTxnMsg⟩,
           ⟨8, some "e8@x.com", abortedTxnMsg⟩,
           ⟨9, some "e9@x.com", abortedTxnMsg⟩,
           ⟨10, some "e10@x.com", abortedTxnMsg⟩]⟩ ∧
    (load_students_batch_tx exDB exDf10).2.students = [] ∧
    (load_students_batch_tx exDB exDf10).2 = exDB := by
  refine ⟨by decide, by decide, by decide⟩

/-- C2: the student update is a merge-coalesce — each settable field of the
matched row becomes `provided.or stored` (so an absent input leaves the
stored value untouched) — while the course conflict branch overwrites
course_name, credits and max_enrollment unconditionally and refreshes the
update timestamp. -/
theorem claim_C2 :
    (∀ (db : DBState) (d : StudentData) (s : DBStudent),
      findMatch db d = some s →
      ((upsert_student db d).1 = (true, some s.student_id, "updated") ∧
        (upsert_student db d).2.students
          = db.students.map (fun t =>
              if t.student_id = s.student_id
              then coalesceUpdate d (get_department_id db d.department_code) db.now s
              else t)) ∧
      ∀ (deptId : Option Nat) (now : Nat),
        (coalesceUpdate d deptId now s).first_name = d.first_name.or s.first_name ∧
        (coalesceUpdate d deptId now s).last_name = d.last_name.or s.last_name ∧
        (coalesceUpdate d deptId now s).date_of_birth
          = d.date_of_birth.or s.date_of_birth ∧
        (coalesceUpdate d deptId now s).gender = d.gender.or s.gender ∧
        (coalesceUpdate d deptId now s).phone = d.phone.or s.phone ∧
        (coalesceUpdate d deptId now s).department_id = deptId.or s.department_id ∧
        (coalesceUpdate d deptId now s).graduation_year
          = d.graduation_year.or s.graduation_year ∧
        (coalesceUpdate d deptId now s).gpa = d.gpa.or s.gpa ∧
        (coalesceUpdate d deptId now s).updated_at = now) ∧
    (∀ (db : DBState) (d : CourseData) (dept : Nat × String) (c : DBCourse),
      db.departments.find? (fun p => p.2 = d.department_code) = some dept →
      db.courses.find? (fun t => t.course_code = d.course_code) = some c →
      (upsert_course db d).2.courses
        = db.courses.map (fun t =>
            if t.course_id = c.course_id
            then { c with
                   course_name := d.course_name
                   credits := d.credits
                   max_enrollment := d.max_enrollment.getD 30
                   updated_at := db.now }
            else t)) := by
  refine ⟨fun db d s hm => ⟨?_, fun deptId now =>
      ⟨rfl, rfl, rfl, rfl, rfl, rfl, rfl, rfl, rfl⟩⟩,
    fun db d dept c h1 h2 => ?_⟩
  · unfold upsert_student
    rw [hm]
    exact ⟨rfl, rfl⟩
  · unfold upsert_course
    rw [h1, h2]

/-- Witness for C2: update `exStudent` (matched via student_code) with
`exPatch`; the coalesced row keeps the stored last name where the patch is
absent and takes the patch's first name. -/
theorem claim_C2_witness :
    findMatch exDB2 exPatch = some exStudent ∧
    (upsert_student exDB2 exPatch).2.students
      = exDB2.students.map (fun t =>
          if t.student_id = exStudent.student_id
          then coalesceUpdate exPatch (get_department_id exDB2 exPatch.department_code)
                 exDB2.now exStudent
          else t) ∧
    (coalesceUpdate exPatch none 7 exStudent).last_name = exStudent.last_name ∧
    (coalesceUpdate exPatch none 7 exStudent).first_name = some "New" := by
  have h := claim_C2
  refine ⟨by decide, ((h.1 exDB2 exPatch exStudent (by decide)).1).2, ?_, ?_⟩
  · have h2 := ((h.1 exDB2 exPatch exStudent (by decide)).2 none 7).2.1
    rw [h2]
    decide
  · rfl

/-- C9: the student UPDATE statement never touches the stored `email` or
`student_code`: the (email, student_code) column pair of the whole table is
unchanged by an update, even when the input record carries a different
non-absent email or student_code than the matched row. -/
theorem claim_C9 (db : DBState) (d : StudentData) (s : DBStudent)
    (hids : (db.students.map DBStudent.student_id).Nodup)
    (hm : findMatch db d = some s) :
    (upsert_student db d).2.students.map (fun t => (t.email, t.student_code))
      = db.students.map (fun t => (t.email, t.student_code)) := by
  unfold upsert_student
  rw [hm]
  simp only [List.map_map]
  apply List.map_congr_left
  intro t ht
  simp only [Function.comp]
  by_cases hid : t.student_id = s.student_id
  · have hs : s ∈ db.students := List.mem_of_find?_eq_some hm
    have hts : t = s := nodup_key_eq hids ht hs (by rw [hid])
    subst hts
    rw [if_pos hid]
    rfl
  · rw [if_neg hid]

/-- Witness for C9: `exPatch` provides a different email than the matched
row, yet the table's email/student_code columns are unchanged. -/
theorem claim_C9_witness :
    exPatch.email = some "different@x.com" ∧
    exStudent.email = some "a@x.com" ∧
    (upsert_student exDB2 exPatch).2.students.map (fun t => (t.email, t.student_code))
      = exDB2.students.map (fun t => (t.email, t.student_code)) :=
  ⟨rfl, rfl, claim_C9 exDB2 exPatch exStudent (by decide) (by decide)⟩

/-- C3 counterexample: on a two-row table whose rows share the same invalid
email, the claimed count equation
`cleaned = input − invalid-email rows − dedup removals` fails: both rows are
reported as invalid emails (2), deduplication removes one of them (1), and
the cleaned table is empty — 0 ≠ 2 − 2 − 1. -/
theorem claim_C3_counterexample :
    ¬ (((transform_students exDf2).cleaned.length : ℤ)
        = (exDf2.length : ℤ)
          - ((transform_students exDf2).errors.countP
              (fun e => decide (e.column = "email")) : ℤ)
          - ((transform_students exDf2).dedupRemoved : ℤ)) := by
  decide

/-- C3 (amended): the final email filter is the only step that removes
individually invalid rows — a row whose email fails validation after
normalization is reported and is absent from the cleaned table — and the
exact accounting is `cleaned + dedup-removals + final-filter removals =
input count` (the original equation double-counts an invalid-email row that
is itself removed by deduplication). -/
theorem claim_C3 (df : Frame) (hnd : (df.map Prod.fst).Nodup)
    (i : Nat) (r₀ : StudentRow) (hmem : (i, r₀) ∈ df)
    (hbad : validate_email (normalize_email r₀.email) = false) :
    (∃ e ∈ (transform_students df).errors, e.row = i ∧ e.column = "email") ∧
    (∀ r : StudentRow, (i, r) ∉ (transform_students df).cleaned) ∧
    (transform_students df).cleaned.length + (transform_students df).dedupRemoved
      + (transform_students df).invalidRemoved = df.length := by
  refine ⟨?_, ?_, transform_students_count df⟩
  · refine ⟨⟨i, "email", "Invalid email format"⟩, ?_, rfl, rfl⟩
    rw [transform_students_errors_eq]
    apply List.mem_append_left
    apply List.mem_append_left
    apply List.mem_append_left
    have hp : (i, step1Clean r₀) ∈ (df.map (fun p => (p.1, step1Clean p.2))).filter
        (fun p => !validate_email p.2.email) := by
      refine List.mem_filter.mpr ⟨List.mem_map.mpr ⟨(i, r₀), hmem, rfl⟩, ?_⟩
      show (!validate_email (i, step1Clean r₀).2.email) = true
      rw [show ((i, step1Clean r₀) : Nat × StudentRow).2.email
          = normalize_email r₀.email from rfl, hbad]
      rfl
    exact List.mem_map_of_mem
      (fun p : Nat × StudentRow => VError.mk p.1 "email" "Invalid email format") hp
  · intro r hr
    have hmap := mem_cleaned_mem_map hr
    have hval := mem_cleaned_validate hr
    have hre : r = rowTransform r₀ := mem_map_nodup_eq hnd hmem hmap
    rw [show ((i, r) : Nat × StudentRow).2 = r from rfl, hre, rowTransform_email,
      hbad] at hval
    exact absurd hval (by decide)

/-- Witness for C3 on the concrete two-row table with invalid emails. -/
theorem claim_C3_witness :
    (exDf2.map Prod.fst).Nodup ∧
    (0, mkRow none (some "bad") .absent) ∈ exDf2 ∧
    validate_email (normalize_email (some "bad")) = false ∧
    (∃ e ∈ (transform_students exDf2).errors, e.row = 0 ∧ e.column = "email") := by
  refine ⟨by decide, by decide, by decide, ?_⟩
  exact (claim_C3 exDf2 (by decide) 0 (mkRow none (some "bad") .absent)
    (by decide) (by decide)).1

/-- C4: for every row, exactly one gpa validation error is recorded iff the
row's GPA fails `validate_gpa`, and the stored value in the cleaned table is
the coerced one (`to_numeric` then clip into [0, 4]); concretely 5.0 ↦ 4.0
(with an error), −1.0 ↦ 0.0, unparseable ↦ absent, and 3.5 ↦ 3.5 with no
error. -/
theorem claim_C4 :
    (∀ (df : Frame), (df.map Prod.fst).Nodup →
      ∀ (i : Nat) (r₀ : StudentRow), (i, r₀) ∈ df →
        ((transform_students df).errors.countP
            (fun e => decide (e.row = i) && decide (e.column = "gpa"))
          = if validate_gpa r₀.gpa then 0 else 1) ∧
        (∀ r : StudentRow, (i, r) ∈ (transform_students df).cleaned →
          r.gpa = gpaCoerce r₀.gpa)) ∧
    gpaCoerce (.num 5) = .num 4 ∧
    gpaCoerce (.num (-1)) = .num 0 ∧
    gpaCoerce (.str "abc") = .absent ∧
    gpaCoerce (.num (7/2)) = .num (7/2) ∧
    validate_gpa (.num 5) = false ∧
    validate_gpa (.num (7/2)) = true := by
  refine ⟨?_, by decide, by decide, by decide, ?_, by decide, ?_⟩
  case refine_2 =>
    have h1 : max ((7 : ℚ) / 2) 0 = 7 / 2 := max_eq_left (by norm_num)
    have h2 : min ((7 : ℚ) / 2) 4 = 7 / 2 := min_eq_left (by norm_num)
    simp [gpaCoerce, toNumeric, h1, h2]
  case refine_3 =>
    simp only [validate_gpa, Bool.and_eq_true, decide_eq_true_eq]
    norm_num
  intro df hnd i r₀ hmem
  constructor
  · have hgoal : (transform_students df).errors.countP
        (fun e => decide (e.row = i) && decide (e.column = "gpa"))
        = df.countP (fun p => decide (p.1 = i) && !validate_gpa p.2.gpa) := by
      rw [transform_students_errors_eq, List.countP_append, List.countP_append,
        List.countP_append]
      rw [countP_errs_ne_col "email" "Invalid email format" (by decide) _ i,
        countP_errs_ne_col "department_code" "Invalid department code" (by decide) _ i,
        countP_errs_ne_col "gender" "Invalid gender" (by decide) _ i,
        countP_errs_gpa df i]
      omega
    rw [hgoal, countP_nodup_key hnd hmem (fun p => !validate_gpa p.2.gpa)]
    cases hv : validate_gpa r₀.gpa <;> simp [hv]
  · intro r hr
    have hmap := mem_cleaned_mem_map hr
    have hre : r = rowTransform r₀ := mem_map_nodup_eq hnd hmem hmap
    rw [hre, rowTransform_gpa]

/-- Witness for C4 on a one-row table with GPA 5.0: exactly one gpa error is
recorded and the stored value is 4.0. -/
theorem claim_C4_witness :
    (exDfG.map Prod.fst).Nodup ∧
    (0, mkRow (some "S1") (some "a@x.com") (.num 5)) ∈ exDfG ∧
    (transform_students exDfG).errors.countP
        (fun e => decide (e.row = 0) && decide (e.column = "gpa")) = 1 := by
  refine ⟨by decide, by decide, ?_⟩
  have h := (claim_C4.1 exDfG (by decide) 0
    (mkRow (some "S1") (some "a@x.com") (.num 5)) (by decide)).1
  rw [h]
  decide

/-- C7: the orchestrator short-circuits on phase failure — an extract failure
means neither transform nor load runs and the extract error is the whole
error list; a structural transform failure (missing email column) means load
does not run and a transform error is recorded — while the returned report
always carries the start time, end time and duration, whatever happened. -/
theorem claim_C7 (env : ETLEnv) :
    (∀ m, env.extractResult = .error m →
      (etl_run env).ranTransform = false ∧ (etl_run env).ranLoad = false ∧
      (etl_run env).errors = [("extract", m)]) ∧
    (∀ t, env.extractResult = .ok t → t.hasEmailCol = false →
      (etl_run env).ranLoad = false ∧
      ("transform", "KeyError: email") ∈ (etl_run env).errors) ∧
    (etl_run env).start_time = some env.t0 ∧
    (etl_run env).end_time = some env.t1 ∧
    (etl_run env).duration = some ((env.t1 : Int) - (env.t0 : Int)) := by
  refine ⟨?_, ?_, (etl_run_timing env).1, (etl_run_timing env).2.1,
    (etl_run_timing env).2.2⟩
  · intro m hm
    obtain ⟨ex, conn, db, t0, t1⟩ := env
    cases ex with
    | error m' =>
      have h : m' = m := by simpa using hm
      subst h
      refine ⟨?_, ?_, ?_⟩ <;> simp [etl_run]
    | ok t => simp at hm
  · intro t ht hcol
    obtain ⟨ex, conn, db, t0, t1⟩ := env
    cases ex with
    | error m => simp at ht
    | ok t' =>
      have h : t' = t := by simpa using ht
      subst h
      constructor <;> simp [etl_run, hcol]

/-- Witness for C7: a concrete environment whose extract phase fails. -/
theorem claim_C7_witness :
    ((ETLEnv.mk (.error "boom") true exDB 5 9).extractResult = .error "boom") ∧
    (etl_run (ETLEnv.mk (.error "boom") true exDB 5 9)).ranTransform = false ∧
    (etl_run (ETLEnv.mk (.error "boom") true exDB 5 9)).ranLoad = false ∧
    (etl_run (ETLEnv.mk (.error "boom") true exDB 5 9)).errors
      = [("extract", "boom")] := by
  have h := (claim_C7 (ETLEnv.mk (.error "boom") true exDB 5 9)).1 "boom" rfl
  exact ⟨rfl, h.1, h.2.1, h.2.2⟩

end ETL
